import Mathlib

/-!
Shallow embedding of the rope-tracking status engine from `src/app.py`.

Dates are modelled as integers (day numbers); Python `date` objects only
ever get compared and shifted by a whole number of days here, so the
embedding uses `Int` with `+ 180` for `timedelta(days=180)`.

A Python value that may be `None` is modelled as an `Option`; the code
path `base_date + timedelta(days=180)` with `base_date = None` raises a
`TypeError`, modelled as `Except.error PyExn.typeError`.

The SQL query `SELECT fall_type FROM fall_logs WHERE rope_id = %s AND
fall_date >= %s` is modelled by `fallsOnOrAfter` over the rope's fall
log; when the bound parameter is SQL `NULL` the comparison is unknown
for every row and the query returns no rows, hence the `none => []` arm.
-/

namespace Passport

/-- A row of `inspection_logs` as seen by the engine: the two columns
`compute_status` selects (`inspection_date`, `verdict`). -/
structure InspectionRecord where
  inspection_date : Int
  verdict : String
deriving DecidableEq

/-- A row of `fall_logs` as seen by the engine: `fall_date` (used in the
query's `WHERE` clause) and `fall_type` (the selected column). -/
structure FallRecord where
  fall_date : Int
  fall_type : String
deriving DecidableEq

/-- The run-time failures the embedded code can raise.  `typeError` is
Python's `TypeError`, raised by `None + timedelta(days=180)` when
`base_date` is `None`. -/
inductive PyExn where
  | typeError
deriving DecidableEq

/-- Lines 71-76 of `src/app.py`: `base_date` is the latest inspection's
date when an inspection exists, otherwise the rope's `purchase_date`
(which may itself be `None`/NULL). -/
def baseDateOf (latestInspection : Option InspectionRecord)
    (purchase_date : Option Int) : Option Int :=
  match latestInspection with
  | some i => some i.inspection_date
  | none => purchase_date

/-- Lines 71-76 of `src/app.py`: `verdict` is the latest inspection's
verdict column, or `None` when no inspection exists. -/
def verdictOf (latestInspection : Option InspectionRecord) : Option String :=
  match latestInspection with
  | some i => some i.verdict
  | none => none

/-- Lines 85-92 of `src/app.py`: the rows of `fall_logs` for this rope
with `fall_date >= base_date`.  The comparison is inclusive.  When the
bound parameter is NULL, `fall_date >= NULL` is unknown for every row
and the query returns nothing. -/
def fallsOnOrAfter (fall_log : List FallRecord) (base_date : Option Int) :
    List FallRecord :=
  match base_date with
  | none => []
  | some b => fall_log.filter (fun f => b ≤ f.fall_date)

/-- Line 94 of `src/app.py`: `major = sum(1 for f in falls if f[0] == 'major')`. -/
def majorCount (falls : List FallRecord) : Nat :=
  (falls.filter (fun f => f.fall_type = "major")).length

/-- Line 95 of `src/app.py`: `minor = sum(1 for f in falls if f[0] == 'minor')`. -/
def minorCount (falls : List FallRecord) : Nat :=
  (falls.filter (fun f => f.fall_type = "minor")).length

/-- `compute_status` (lines 56-115 of `src/app.py`).  The database reads
are made explicit inputs: `latestInspection` is the row produced by the
`ORDER BY inspection_date DESC LIMIT 1` query, `fall_log` is the rope's
full fall log (the engine's own query filters it by date), and `today`
is the value the function reads from the wall clock at line 97
(`datetime.today().date()`), threaded here as a parameter so the read is
explicit.  The result is the status string the function returns, or the
exception it raises. -/
def compute_status (today : Int) (purchase_date : Option Int)
    (latestInspection : Option InspectionRecord)
    (fall_log : List FallRecord) : Except PyExn String :=
  let base_date := baseDateOf latestInspection purchase_date
  if verdictOf latestInspection = some "fail" then
    Except.ok "RETIRED"
  else
    let falls := fallsOnOrAfter fall_log base_date
    if 1 ≤ majorCount falls ∨ 3 ≤ minorCount falls then
      Except.ok "INSPECTION DUE"
    else
      match base_date with
      | none => Except.error PyExn.typeError
      | some b =>
        if b + 180 ≤ today then Except.ok "INSPECTION DUE"
        else Except.ok "ACTIVE"

/-- Lines 185-192 of `src/app.py`: the status-to-color chain in
`rope_details`, including its `else: gray` fallback branch. -/
def status_color (status : String) : String :=
  if status = "ACTIVE" then "green"
  else if status = "INSPECTION DUE" then "orange"
  else if status = "RETIRED" then "red"
  else "gray"

/-- The form fields `add_inspection` reads on POST (lines 259-262 of
`src/app.py`); `comment` uses `request.form.get`, hence optional. -/
structure InspectionForm where
  inspection_date : Int
  inspected_by : String
  verdict : String
  comment : Option String
deriving DecidableEq

/-- A row of `inspection_logs` as inserted by `add_inspection`
(lines 287-298 of `src/app.py`). -/
structure InspectionRow where
  rope_id : String
  inspection_date : Int
  inspected_by : String
  verdict : String
  comment : Option String
  image_url : Option String
deriving DecidableEq

/-- The form fields `add_fall` reads on POST (lines 339-343 of
`src/app.py`). -/
structure FallForm where
  fall_date : Int
  fall_time : String
  recorded_by : String
  fall_type : String
  comment : String
deriving DecidableEq

/-- A row of `fall_logs` as inserted by `add_fall` (lines 376-388 of
`src/app.py`). -/
structure FallRow where
  rope_id : String
  fall_date : Int
  fall_time : String
  recorded_by : String
  fall_type : String
  comment : String
  image_url : Option String
deriving DecidableEq

/-- The responses the two POST handlers can produce: a bare text body
(`add_inspection`'s future-date refusal), a rendered `error.html`
(`add_fall`'s future-date refusal), or a redirect after insertion. -/
inductive HandlerResponse where
  | text (body : String)
  | errorTemplate (message : String)
  | redirect (location : String)
deriving DecidableEq

/-- The POST branch of `add_inspection` (lines 256-304 of `src/app.py`).
`today` is the wall-clock date read at line 266, `image_url` the URL the
optional upload would yield (the upload happens after the date check and
touches no log), `log` the current `inspection_logs` rows for this rope.
Returns the HTTP response and the log after the request. -/
def add_inspection (rope_id : String) (today : Int) (form : InspectionForm)
    (image_url : Option String) (log : List InspectionRow) :
    HandlerResponse × List InspectionRow :=
  if today < form.inspection_date then
    (HandlerResponse.text "Inspection date cannot be in the future.", log)
  else
    (HandlerResponse.redirect ("/rope/" ++ rope_id ++ "/inspections"),
     log ++ [{ rope_id := rope_id, inspection_date := form.inspection_date,
               inspected_by := form.inspected_by, verdict := form.verdict,
               comment := form.comment, image_url := image_url }])

/-- The POST branch of `add_fall` (lines 335-394 of `src/app.py`),
modelled like `add_inspection`. -/
def add_fall (rope_id : String) (today : Int) (form : FallForm)
    (image_url : Option String) (log : List FallRow) :
    HandlerResponse × List FallRow :=
  if today < form.fall_date then
    (HandlerResponse.errorTemplate "Fall date cannot be in the future.", log)
  else
    (HandlerResponse.redirect ("/rope/" ++ rope_id ++ "/falls"),
     log ++ [{ rope_id := rope_id, fall_date := form.fall_date,
               fall_time := form.fall_time, recorded_by := form.recorded_by,
               fall_type := form.fall_type, comment := form.comment,
               image_url := image_url }])

/-- C1: if the latest inspection exists and its verdict is `fail`, the
engine returns RETIRED, whatever `today`, the purchase date and the fall
log are (falls after the failing inspection included): the fail check at
lines 79-82 returns before the fall query and the time rule run. -/
theorem fail_override_retired (today : Int) (purchase_date : Option Int)
    (fall_log : List FallRecord) (i : InspectionRecord)
    (hv : i.verdict = "fail") :
    compute_status today purchase_date (some i) fall_log =
      Except.ok "RETIRED" := by
  simp [compute_status, verdictOf, hv]

/-- Witness for C1: inspection on day 5 with verdict `fail`, a major
fall on day 10 (after the failing inspection), reference date day 1000:
still RETIRED. -/
theorem fail_override_retired_witness :
    compute_status 1000 (some 0)
      (some { inspection_date := 5, verdict := "fail" })
      [{ fall_date := 10, fall_type := "major" }] = Except.ok "RETIRED" :=
  fail_override_retired 1000 (some 0)
    [{ fall_date := 10, fall_type := "major" }]
    { inspection_date := 5, verdict := "fail" } rfl

/-- C2: when the latest verdict is not `fail`, at least one major fall
or at least three minor falls on or after the base date (latest
inspection date, else purchase date) yields INSPECTION DUE; the date
filter `fall_date >= base_date` is inclusive, so the second conjunct
records that a fall dated exactly on the base date is among the counted
falls. -/
theorem fall_threshold_due :
    (∀ (today b : Int) (purchase_date : Option Int)
        (insp : Option InspectionRecord) (fall_log : List FallRecord),
      verdictOf insp ≠ some "fail" →
      baseDateOf insp purchase_date = some b →
      1 ≤ majorCount (fallsOnOrAfter fall_log (some b)) ∨
        3 ≤ minorCount (fallsOnOrAfter fall_log (some b)) →
      compute_status today purchase_date insp fall_log =
        Except.ok "INSPECTION DUE")
    ∧ ∀ (b : Int) (fall_log : List FallRecord) (f : FallRecord),
      f ∈ fall_log → f.fall_date = b → f ∈ fallsOnOrAfter fall_log (some b) := by
  constructor
  · intro today b purchase_date insp fall_log hfail hbase hcount
    rcases hcount with h | h <;>
      simp [compute_status, hbase, hfail, h]
  · intro b fall_log f hmem hdate
    simp [fallsOnOrAfter, List.mem_filter, hmem, hdate]

/-- Witness for C2: no inspection, purchase date day 0, a single minor
fall exactly on day 0 plus two later minor falls reaches the minor
threshold and yields INSPECTION DUE; and the day-0 fall is indeed among
the filtered falls (inclusive comparison). -/
theorem fall_threshold_due_witness :
    compute_status 10 (some 0) none
      [{ fall_date := 0, fall_type := "minor" },
       { fall_date := 3, fall_type := "minor" },
       { fall_date := 7, fall_type := "minor" }] = Except.ok "INSPECTION DUE"
    ∧ ({ fall_date := 0, fall_type := "minor" } : FallRecord) ∈
        fallsOnOrAfter
          [{ fall_date := 0, fall_type := "minor" },
           { fall_date := 3, fall_type := "minor" },
           { fall_date := 7, fall_type := "minor" }] (some 0) :=
  ⟨fall_threshold_due.1 10 0 (some 0) none
      [{ fall_date := 0, fall_type := "minor" },
       { fall_date := 3, fall_type := "minor" },
       { fall_date := 7, fall_type := "minor" }]
      (by simp [verdictOf]) rfl (by right; rfl),
   fall_threshold_due.2 0
      [{ fall_date := 0, fall_type := "minor" },
       { fall_date := 3, fall_type := "minor" },
       { fall_date := 7, fall_type := "minor" }]
      { fall_date := 0, fall_type := "minor" } (by simp) rfl⟩

/-- C3: with a non-`fail` latest verdict and neither fall threshold
reached (no major fall, fewer than three minor falls since the base
date), the engine returns INSPECTION DUE exactly when
`today >= base_date + 180`; otherwise the run falls through to ACTIVE. -/
theorem time_rule_iff (today b : Int) (purchase_date : Option Int)
    (insp : Option InspectionRecord) (fall_log : List FallRecord)
    (hfail : verdictOf insp ≠ some "fail")
    (hbase : baseDateOf insp purchase_date = some b)
    (hmaj : majorCount (fallsOnOrAfter fall_log (some b)) = 0)
    (hmin : minorCount (fallsOnOrAfter fall_log (some b)) < 3) :
    (compute_status today purchase_date insp fall_log =
        Except.ok "INSPECTION DUE" ↔ b + 180 ≤ today) := by
  have hmin' : ¬ 3 ≤ minorCount (fallsOnOrAfter fall_log (some b)) :=
    not_le.mpr hmin
  by_cases ht : b + 180 ≤ today <;>
    simp [compute_status, hbase, hfail, hmaj, hmin', ht]

/-- Witness for C3: base date day 0, no falls; on day 180 the engine
returns INSPECTION DUE, on day 179 it does not. -/
theorem time_rule_iff_witness :
    (compute_status 180 (some 0) none [] = Except.ok "INSPECTION DUE" ↔
      (0 : Int) + 180 ≤ 180)
    ∧ (compute_status 179 (some 0) none [] = Except.ok "INSPECTION DUE" ↔
      (0 : Int) + 180 ≤ 179) :=
  ⟨time_rule_iff 180 0 (some 0) none [] (by simp [verdictOf]) rfl rfl
      (by decide),
   time_rule_iff 179 0 (some 0) none [] (by simp [verdictOf]) rfl rfl
      (by decide)⟩

/-- C4: with a non-`fail` latest verdict, no major fall, fewer than
three minor falls since the base date and `today < base_date + 180`,
the engine returns ACTIVE; in particular (second conjunct) a rope with
no inspections and no falls purchased 10 days before today is ACTIVE,
the purchase date serving as base date. -/
theorem default_active :
    (∀ (today b : Int) (purchase_date : Option Int)
        (insp : Option InspectionRecord) (fall_log : List FallRecord),
      verdictOf insp ≠ some "fail" →
      baseDateOf insp purchase_date = some b →
      majorCount (fallsOnOrAfter fall_log (some b)) = 0 →
      minorCount (fallsOnOrAfter fall_log (some b)) < 3 →
      today < b + 180 →
      compute_status today purchase_date insp fall_log = Except.ok "ACTIVE")
    ∧ ∀ p : Int, compute_status (p + 10) (some p) none [] =
        Except.ok "ACTIVE" := by
  constructor
  · intro today b purchase_date insp fall_log hfail hbase hmaj hmin ht
    have hmin' : ¬ 3 ≤ minorCount (fallsOnOrAfter fall_log (some b)) :=
      not_le.mpr hmin
    have ht' : ¬ b + 180 ≤ today := not_le.mpr ht
    simp [compute_status, hbase, hfail, hmaj, hmin', ht']
  · intro p
    have ht' : ¬ p + 180 ≤ p + 10 := by omega
    simp [compute_status, baseDateOf, verdictOf, fallsOnOrAfter,
      majorCount, minorCount, ht']

/-- Witness for C4: purchase date day 0, no inspections, no falls,
reference date day 10: ACTIVE, by both conjuncts. -/
theorem default_active_witness :
    compute_status 10 (some 0) none [] = Except.ok "ACTIVE" ∧
    compute_status ((0 : Int) + 10) (some 0) none [] = Except.ok "ACTIVE" :=
  ⟨default_active.1 10 0 (some 0) none [] (by simp [verdictOf]) rfl rfl
      (by decide) (by decide),
   default_active.2 0⟩

/-- C5 (behaviour at the failing inputs): a fall whose `fall_type` is
neither `major` nor `minor` is silently ignored by the equality checks at
lines 94-95 — it is counted as neither major nor minor — and a latest
inspection whose verdict is outside the known set is treated as non-`fail`
by line 79; in both cases the engine returns an ordinary status and raises
no error. -/
theorem unknown_enum_silently_absorbed :
    compute_status 10 (some 0) none
      [{ fall_date := 5, fall_type := "moderate" }] = Except.ok "ACTIVE"
    ∧ compute_status 10 (some 0)
        (some { inspection_date := 0, verdict := "excellent" }) [] =
      Except.ok "ACTIVE" :=
  ⟨rfl, rfl⟩

/-- C6: when no inspection exists and the purchase date is NULL, the
engine establishes no base date: the fall query returns nothing (NULL
comparison), the fall rule cannot fire, and the run raises at
`base_date + timedelta(days=180)` — no status value, in particular not
ACTIVE, is ever returned. -/
theorem missing_base_date_fails (today : Int) (fall_log : List FallRecord) :
    compute_status today none none fall_log = Except.error PyExn.typeError := by
  simp [compute_status, baseDateOf, verdictOf, fallsOnOrAfter, majorCount,
    minorCount]

/-- C7 (behaviour at the failing input): the result depends on the
wall-clock date that `compute_status` reads internally at line 97 —
with identical function arguments (purchase date day 0, no inspections,
no falls), an invocation when the clock reads day 179 returns ACTIVE and
one when it reads day 180 returns INSPECTION DUE. -/
theorem wall_clock_read_changes_result :
    compute_status 179 (some 0) none [] = Except.ok "ACTIVE" ∧
    compute_status 180 (some 0) none [] = Except.ok "INSPECTION DUE" :=
  ⟨rfl, rfl⟩

/-- C8: the status-to-color mapping sends ACTIVE to green, INSPECTION
DUE to orange and RETIRED to red, and no status value the engine can
return reaches the gray fallback branch. -/
theorem status_color_total :
    status_color "ACTIVE" = "green"
    ∧ status_color "INSPECTION DUE" = "orange"
    ∧ status_color "RETIRED" = "red"
    ∧ ∀ (today : Int) (purchase_date : Option Int)
        (insp : Option InspectionRecord) (fall_log : List FallRecord)
        (s : String),
      compute_status today purchase_date insp fall_log = Except.ok s →
      status_color s ≠ "gray" := by
  refine ⟨rfl, rfl, rfl, ?_⟩
  intro today purchase_date insp fall_log s h
  have hs : s = "ACTIVE" ∨ s = "INSPECTION DUE" ∨ s = "RETIRED" := by
    by_cases h1 : verdictOf insp = some "fail"
    · simp [compute_status, h1] at h
      exact Or.inr (Or.inr h.symm)
    · rcases hb : baseDateOf insp purchase_date with _ | b
      · simp [compute_status, h1, hb, fallsOnOrAfter, majorCount,
          minorCount] at h
      · by_cases h2 : 1 ≤ majorCount (fallsOnOrAfter fall_log (some b)) ∨
            3 ≤ minorCount (fallsOnOrAfter fall_log (some b))
        · simp [compute_status, h1, hb, h2] at h
          exact Or.inr (Or.inl h.symm)
        · by_cases h3 : b + 180 ≤ today
          · simp [compute_status, h1, hb, h2, h3] at h
            exact Or.inr (Or.inl h.symm)
          · simp [compute_status, h1, hb, h2, h3] at h
            exact Or.inl h.symm
  rcases hs with hs | hs | hs <;> subst hs <;> decide

/-- Witness for C8: the engine returns ACTIVE on a fresh rope, and that
status renders green, not gray. -/
theorem status_color_total_witness :
    compute_status 0 (some 0) none [] = Except.ok "ACTIVE" ∧
    status_color "ACTIVE" ≠ "gray" :=
  ⟨rfl, status_color_total.2.2.2 0 (some 0) none [] "ACTIVE" rfl⟩

/-- C9: with no inspection record the fail override cannot fire, so the
engine never returns RETIRED; and whenever a purchase date is present
(every rope row carries one by construction), the result is ACTIVE or
INSPECTION DUE. -/
theorem no_inspection_never_retired :
    (∀ (today : Int) (purchase_date : Option Int)
        (fall_log : List FallRecord),
      compute_status today purchase_date none fall_log ≠
        Except.ok "RETIRED")
    ∧ ∀ (today p : Int) (fall_log : List FallRecord),
      compute_status today (some p) none fall_log = Except.ok "ACTIVE" ∨
      compute_status today (some p) none fall_log =
        Except.ok "INSPECTION DUE" := by
  constructor
  · intro today purchase_date fall_log
    cases purchase_date with
    | none =>
      simp [compute_status, baseDateOf, verdictOf, fallsOnOrAfter,
        majorCount, minorCount]
    | some p =>
      by_cases h2 : 1 ≤ majorCount (fallsOnOrAfter fall_log (some p)) ∨
          3 ≤ minorCount (fallsOnOrAfter fall_log (some p))
      · simp [compute_status, baseDateOf, verdictOf, h2]
      · by_cases h3 : p + 180 ≤ today <;>
          simp [compute_status, baseDateOf, verdictOf, h2, h3]
  · intro today p fall_log
    by_cases h2 : 1 ≤ majorCount (fallsOnOrAfter fall_log (some p)) ∨
        3 ≤ minorCount (fallsOnOrAfter fall_log (some p))
    · right
      simp [compute_status, baseDateOf, verdictOf, h2]
    · by_cases h3 : p + 180 ≤ today
      · right
        simp [compute_status, baseDateOf, verdictOf, h2, h3]
      · left
        simp [compute_status, baseDateOf, verdictOf, h2, h3]

/-- Witness for C9 at a concrete input: a fresh rope is not RETIRED and
is ACTIVE or INSPECTION DUE. -/
theorem no_inspection_never_retired_witness :
    compute_status 0 (some 0) none [] ≠ Except.ok "RETIRED" ∧
    (compute_status 0 (some 0) none [] = Except.ok "ACTIVE" ∨
      compute_status 0 (some 0) none [] = Except.ok "INSPECTION DUE") :=
  ⟨no_inspection_never_retired.1 0 (some 0) [],
   no_inspection_never_retired.2 0 0 []⟩

/-- C10: an inspection or fall whose event date is strictly after today
is answered with the handler's error response, and the corresponding log
is returned unchanged — no row is inserted. -/
theorem future_event_date_rejected (rid : String) (today : Int)
    (iform : InspectionForm) (fform : FallForm)
    (iurl furl : Option String)
    (ilog : List InspectionRow) (flog : List FallRow)
    (hi : today < iform.inspection_date) (hf : today < fform.fall_date) :
    add_inspection rid today iform iurl ilog =
      (HandlerResponse.text "Inspection date cannot be in the future.", ilog)
    ∧ add_fall rid today fform furl flog =
      (HandlerResponse.errorTemplate "Fall date cannot be in the future.",
        flog) := by
  constructor
  · simp [add_inspection, hi]
  · simp [add_fall, hf]

/-- Witness for C10: on day 0, an inspection dated day 1 and a fall
dated day 1 are both rejected and both logs stay empty. -/
theorem future_event_date_rejected_witness :
    add_inspection "R1" 0
      { inspection_date := 1, inspected_by := "alice", verdict := "pass",
        comment := none } none [] =
      (HandlerResponse.text "Inspection date cannot be in the future.", [])
    ∧ add_fall "R1" 0
      { fall_date := 1, fall_time := "09:00", recorded_by := "bob",
        fall_type := "minor", comment := "" } none [] =
      (HandlerResponse.errorTemplate "Fall date cannot be in the future.",
        []) :=
  future_event_date_rejected "R1" 0
    { inspection_date := 1, inspected_by := "alice", verdict := "pass",
      comment := none }
    { fall_date := 1, fall_time := "09:00", recorded_by := "bob",
      fall_type := "minor", comment := "" }
    none none [] [] (by decide) (by decide)

end Passport
